import Mathlib

/-!
Verification of the tax-schedule and ETI computation core of the llm-eti
repository: 2024 federal bracket lookup and liability
(src/llm_eti/tax_brackets.py), the continuous ETI formula
(src/llm_eti/edsl_client.py, src/tax_utils.py), the categorical-response
ETI (src/llm_eti/analysis.py, src/llm_eti/survey.py), and the PKNF lab
notch/kink schedules (src/PKNF_2024_replication/GPT_PKNF_replication.py,
src/llm_eti/survey.py, src/llm_eti/config.py).

Python floats are modelled by exact rationals; a Python `raise ValueError`
is modelled by `Except.error`, and an explicit `None` result by
`Option.none`.
-/

namespace LlmEti

/-- Tax filing status (tax_brackets.py `FilingStatus`). -/
inductive FilingStatus where
  | single
  | married_filing_jointly
  | married_filing_separately
  | head_of_household
  deriving DecidableEq, Fintype, Repr

open FilingStatus

/-- 2024 federal tax brackets (tax_brackets.py `BRACKETS_2024`).
Each table is a list of (upper_bound, rate) pairs; the Python tables end
with a `(float("inf"), 0.37)` entry, modelled here as the list of finite
brackets paired with the top rate. -/
def BRACKETS_2024 (s : FilingStatus) : List (ℚ × ℚ) × ℚ :=
  match s with
  | single =>
      ([(11600, 10/100), (47150, 12/100), (100525, 22/100),
        (191950, 24/100), (243725, 32/100), (609350, 35/100)], 37/100)
  | married_filing_jointly =>
      ([(23200, 10/100), (94300, 12/100), (201050, 22/100),
        (383900, 24/100), (487450, 32/100), (731200, 35/100)], 37/100)
  | married_filing_separately =>
      ([(11600, 10/100), (47150, 12/100), (100525, 22/100),
        (191950, 24/100), (243725, 32/100), (365600, 35/100)], 37/100)
  | head_of_household =>
      ([(16550, 10/100), (63100, 12/100), (100500, 22/100),
        (191950, 24/100), (243700, 32/100), (609350, 35/100)], 37/100)

/-- Finite brackets of a filing status's table. -/
def bracketsOf (s : FilingStatus) : List (ℚ × ℚ) := (BRACKETS_2024 s).1

/-- Top (unbounded-bracket) rate of a filing status's table. -/
def topRateOf (s : FilingStatus) : ℚ := (BRACKETS_2024 s).2

/-- The scan of `get_marginal_rate_2024`: return the rate of the first
bracket with `taxable_income <= upper_bound`; the Python loop's final
`float("inf")` entry always matches, giving the top rate. -/
def rateScan (income : ℚ) : List (ℚ × ℚ) → ℚ → ℚ
  | [], top => top
  | (ub, r) :: rest, top => if income ≤ ub then r else rateScan income rest top

/-- tax_brackets.py `get_marginal_rate_2024`: raises ValueError on negative
income, otherwise scans the bracket table. -/
def get_marginal_rate_2024 (taxable_income : ℚ) (s : FilingStatus) :
    Except String ℚ :=
  if taxable_income < 0 then .error "Income cannot be negative"
  else .ok (rateScan taxable_income (bracketsOf s) (topRateOf s))

/-- The loop of `calculate_tax_liability`: `prev` is `prev_ceiling`, `acc`
the accumulated tax; the first bracket with `taxable_income <= ceiling` is
charged partially and the loop breaks, earlier brackets are charged in
full; the Python list's final infinite ceiling always takes the partial
branch, modelled by the `[]` case. -/
def taxLoop (income prev acc : ℚ) : List (ℚ × ℚ) → ℚ → ℚ
  | [], top => acc + (income - prev) * top
  | (c, r) :: rest, top =>
      if income ≤ c then acc + (income - prev) * r
      else taxLoop income c (acc + (c - prev) * r) rest top

/-- tax_brackets.py `calculate_tax_liability`: ValueError on negative
income, 0.0 at zero income, otherwise the bracket loop. -/
def calculate_tax_liability (taxable_income : ℚ) (s : FilingStatus) :
    Except String ℚ :=
  if taxable_income < 0 then .error "Income cannot be negative"
  else if taxable_income = 0 then .ok 0
  else .ok (taxLoop taxable_income 0 0 (bracketsOf s) (topRateOf s))

/-- tax_brackets.py `calculate_effective_rate`: returns 0.0 whenever
`taxable_income <= 0` (negative income included — there is no negative
check before the guard), otherwise liability divided by income. -/
def calculate_effective_rate (taxable_income : ℚ) (s : FilingStatus) :
    Except String ℚ :=
  if taxable_income ≤ 0 then .ok 0
  else (calculate_tax_liability taxable_income s).map fun t => t / taxable_income

/-- Spec-side reading of the marginal-rate rule ("the rate of the first
bracket whose upper bound is >= income"), via `List.find?`. -/
def firstRateSpec (income : ℚ) (brs : List (ℚ × ℚ)) (top : ℚ) : ℚ :=
  match brs.find? (fun b => decide (income ≤ b.1)) with
  | some b => b.2
  | none => top

/-- Spec-side reading of the liability formula: every bracket contributes
its rate times the part of `[lo, ceiling]` lying below `income`, clamped
at zero; full brackets below the one containing `income` contribute
`span * rate`, the containing bracket `(income - previous_ceiling) * rate`,
higher brackets nothing. -/
def specTaxSum (income lo : ℚ) : List (ℚ × ℚ) → ℚ → ℚ
  | [], top => top * max 0 (income - lo)
  | (c, r) :: rest, top => r * max 0 (min income c - lo) + specTaxSum income c rest top

/-- Ceilings of a bracket list are nondecreasing starting from `lo`. -/
def ceilMono : ℚ → List (ℚ × ℚ) → Prop
  | _, [] => True
  | lo, (c, _) :: rest => lo ≤ c ∧ ceilMono c rest

/-- `l` bounds every rate of the list (and the top rate) from below, and
the rates are nondecreasing along the list. -/
def ratesLB (l : ℚ) : List (ℚ × ℚ) → ℚ → Prop
  | [], top => l ≤ top
  | (_, r) :: rest, top => l ≤ r ∧ ratesLB r rest top

instance (lo : ℚ) (brs : List (ℚ × ℚ)) : Decidable (ceilMono lo brs) := by
  induction brs generalizing lo with
  | nil => exact .isTrue trivial
  | cons b rest ih =>
      cases b with
      | mk c r => exact @instDecidableAnd _ _ _ (ih c)

instance (l : ℚ) (brs : List (ℚ × ℚ)) (top : ℚ) :
    Decidable (ratesLB l brs top) := by
  induction brs generalizing l with
  | nil => exact inferInstanceAs (Decidable (l ≤ top))
  | cons b rest ih =>
      cases b with
      | mk c r => exact @instDecidableAnd _ _ _ (ih r)

/-- edsl_client.py `EDSLClient.calculate_eti`: the Python body computes
`percent_change_income` first (a `ZeroDivisionError` on
`initial_income == 0` is caught and becomes `None`), then
`percent_change_net_of_tax_rate` (`initial_rate == 1` likewise becomes
`None`), then returns `None` on a zero percent change and the ratio
otherwise. -/
def calculate_eti (initial_rate new_rate initial_income new_income : ℚ) :
    Option ℚ :=
  if initial_income = 0 then none
  else if (1 : ℚ) - initial_rate = 0 then none
  else
    let percent_change_income := (new_income - initial_income) / initial_income
    let percent_change_net_of_tax_rate :=
      ((1 - new_rate) - (1 - initial_rate)) / (1 - initial_rate)
    if percent_change_net_of_tax_rate = 0 then none
    else some (percent_change_income / percent_change_net_of_tax_rate)

/-- Categorical income response (survey.py `IncomeResponse`). -/
inductive IncomeResponse where
  | much_lower
  | somewhat_lower
  | about_same
  | somewhat_higher
  | much_higher
  deriving DecidableEq, Fintype, Repr

/-- survey.py `RESPONSE_MIDPOINTS`: fixed percent-change midpoint of each
response category. -/
def RESPONSE_MIDPOINTS : IncomeResponse → ℚ
  | .much_lower => -(15/100)
  | .somewhat_lower => -(6/100)
  | .about_same => 0
  | .somewhat_higher => 6/100
  | .much_higher => 15/100

/-- analysis.py `response_to_eti`: midpoint percent change divided by the
percent change of the net-of-tax rate; `None` when `current_rate == 1` or
when the absolute percent change is below the `1e-10` tolerance. -/
def response_to_eti (resp : IncomeResponse) (current_rate new_rate : ℚ) :
    Option ℚ :=
  let pct_change_income := RESPONSE_MIDPOINTS resp
  let net_of_tax_current := 1 - current_rate
  let net_of_tax_new := 1 - new_rate
  if net_of_tax_current = 0 then none
  else
    let pct_change_net_of_tax :=
      (net_of_tax_new - net_of_tax_current) / net_of_tax_current
    if |pct_change_net_of_tax| < 1/10^10 then none
    else some (pct_change_income / pct_change_net_of_tax)

/-- PKNF progressive-schedule threshold (config.py `Config.PKNF_CONFIG`,
`progressive_threshold = 400`). -/
def pknf_threshold : ℚ := 400

/-- PKNF low rate (config.py, `progressive_low_rate = 0.25`). -/
def pknf_low_rate : ℚ := 25/100

/-- PKNF high rate (config.py, `progressive_high_rate = 0.50`). -/
def pknf_high_rate : ℚ := 50/100

/-- Modelled from the spec: `notch_tax(income, threshold, low_rate,
high_rate)` — no function under src/ computes the lab-schedule tax; the
notch schedule exists only as prompt text built by
GPT_PKNF_replication.py `generate_tax_scenario` ("The tax rate is rate2%
on the entire income if income exceeds bkt1 cents"): income at or below
the threshold is taxed at the low rate, income above it is taxed at the
high rate on the entire amount. -/
def notch_tax (income threshold low_rate high_rate : ℚ) : ℚ :=
  if income ≤ threshold then income * low_rate else income * high_rate

/-- Modelled from the spec: `after_tax_income(income, schedule)` =
`income − notch_tax(income, ...)`. -/
def after_tax_income (income threshold low_rate high_rate : ℚ) : ℚ :=
  income - notch_tax income threshold low_rate high_rate

/-- The worked example computed inside GPT_PKNF_replication.py
`generate_tax_scenario` for the progressive case: the tax shown for an
income of `bkt1 + 20` cents is `(rate2 / 100) * (bkt1 + 20)` — the high
rate applied to the entire income. -/
def pknf_example_tax (bkt1 rate2 : ℚ) : ℚ := (rate2 / 100) * (bkt1 + 20)

/-- Modelled from the spec: the two-bracket schedule of survey.py
`create_pknf_lab_prompt` — its hard-coded example reads "Working 21 hours
= $420 income. Tax = $100 + $10 (50% on $20 above $400) = $110", i.e. the
high rate applies only to the excess over the threshold (standard kink,
not a notch). -/
def survey_lab_tax (income threshold low_rate high_rate : ℚ) : ℚ :=
  if income ≤ threshold then income * low_rate
  else threshold * low_rate + (income - threshold) * high_rate

end LlmEti

namespace LlmEti

/-! ### Helper lemmas -/

theorem rateScan_eq_firstRateSpec (income : ℚ) (brs : List (ℚ × ℚ)) (top : ℚ) :
    rateScan income brs top = firstRateSpec income brs top := by
  induction brs with
  | nil => rfl
  | cons b rest ih =>
      cases b with
      | mk ub r =>
          by_cases h : income ≤ ub
          · simp [rateScan, firstRateSpec, List.find?, h]
          · simp only [rateScan, firstRateSpec, List.find?, h, if_false,
              decide_eq_true_eq] at *
            simpa [firstRateSpec, h] using ih

theorem specTaxSum_eq_zero (income lo top : ℚ) (brs : List (ℚ × ℚ))
    (hle : income ≤ lo) (hm : ceilMono lo brs) :
    specTaxSum income lo brs top = 0 := by
  induction brs generalizing lo with
  | nil =>
      simp only [specTaxSum]
      have : income - lo ≤ 0 := by linarith
      rw [max_eq_left this, mul_zero]
  | cons b rest ih =>
      cases b with
      | mk c r =>
          obtain ⟨hlc, hm'⟩ := hm
          simp only [specTaxSum]
          have h1 : min income c - lo ≤ 0 := by
            have : min income c ≤ income := min_le_left _ _
            linarith
          rw [max_eq_left h1, mul_zero, zero_add]
          exact ih c (le_trans hle hlc) hm'

theorem taxLoop_eq_specTaxSum (income top : ℚ) (brs : List (ℚ × ℚ)) :
    ∀ lo acc : ℚ, lo ≤ income → ceilMono lo brs →
      taxLoop income lo acc brs top = acc + specTaxSum income lo brs top := by
  induction brs with
  | nil =>
      intro lo acc hlo _
      simp only [taxLoop, specTaxSum]
      have : 0 ≤ income - lo := by linarith
      rw [max_eq_right this]
      ring
  | cons b rest ih =>
      intro lo acc hlo hm
      cases b with
      | mk c r =>
          obtain ⟨hlc, hm'⟩ := hm
          by_cases h : income ≤ c
          · simp only [taxLoop, specTaxSum, if_pos h]
            rw [specTaxSum_eq_zero income c top rest h hm']
            rw [min_eq_left h, max_eq_right (by linarith : (0:ℚ) ≤ income - lo)]
            ring
          · push_neg at h
            simp only [taxLoop, specTaxSum, if_neg (not_le.mpr h)]
            rw [ih c _ (le_of_lt h) hm']
            rw [min_eq_right (le_of_lt h),
              max_eq_right (by linarith : (0:ℚ) ≤ c - lo)]
            ring

theorem ratesLB_le_rateScan (income l top : ℚ) (brs : List (ℚ × ℚ))
    (h : ratesLB l brs top) : l ≤ rateScan income brs top := by
  induction brs generalizing l with
  | nil => exact h
  | cons b rest ih =>
      cases b with
      | mk c r =>
          obtain ⟨hlr, h'⟩ := h
          by_cases hc : income ≤ c
          · simpa [rateScan, hc] using hlr
          · simp only [rateScan, if_neg hc]
            exact le_trans hlr (ih r h')

theorem taxLoop_le_marginal (income top : ℚ) (brs : List (ℚ × ℚ)) :
    ∀ lo acc l : ℚ, lo ≤ income → ceilMono lo brs → ratesLB l brs top →
      taxLoop income lo acc brs top ≤
        acc + (income - lo) * rateScan income brs top := by
  induction brs with
  | nil =>
      intro lo acc l hlo _ _
      simp only [taxLoop, rateScan]
      linarith
  | cons b rest ih =>
      intro lo acc l hlo hm hr
      cases b with
      | mk c r =>
          obtain ⟨hlc, hm'⟩ := hm
          obtain ⟨hlr, hr'⟩ := hr
          by_cases h : income ≤ c
          · simp only [taxLoop, rateScan, if_pos h]
            linarith
          · push_neg at h
            simp only [taxLoop, rateScan, if_neg (not_le.mpr h)]
            have step := ih c (acc + (c - lo) * r) r (le_of_lt h) hm' hr'
            have hrM : r ≤ rateScan income rest top :=
              ratesLB_le_rateScan income r top rest hr'
            have hclo : 0 ≤ c - lo := by linarith
            nlinarith [mul_le_mul_of_nonneg_left hrM hclo]

end LlmEti

namespace LlmEti

open FilingStatus

theorem ceilMono_table (s : FilingStatus) : ceilMono 0 (bracketsOf s) := by
  cases s <;> norm_num [ceilMono, bracketsOf, BRACKETS_2024]

theorem ratesLB_table (s : FilingStatus) :
    ratesLB 0 (bracketsOf s) (topRateOf s) := by
  cases s <;> norm_num [ratesLB, bracketsOf, topRateOf, BRACKETS_2024]

/-! ### Claims -/

/-- C1: for every filing status, `get_marginal_rate_2024` on nonnegative
income returns the rate of the first bracket whose upper bound is ≥ the
income (so income exactly at an upper bound belongs to that lower
bracket), and for SINGLE filers it returns 0.22 at 75000, 0.10 at 11600
and 0.12 at 11601. -/
theorem c1_marginal_rate_first_bracket :
    (∀ (income : ℚ) (s : FilingStatus), 0 ≤ income →
      get_marginal_rate_2024 income s =
        .ok (firstRateSpec income (bracketsOf s) (topRateOf s))) ∧
    get_marginal_rate_2024 75000 single = .ok (22/100) ∧
    get_marginal_rate_2024 11600 single = .ok (10/100) ∧
    get_marginal_rate_2024 11601 single = .ok (12/100) := by
  refine ⟨fun income s h => ?_, ?_, ?_, ?_⟩
  · rw [get_marginal_rate_2024, if_neg (not_lt.mpr h),
      rateScan_eq_firstRateSpec]
  · norm_num [get_marginal_rate_2024, bracketsOf, topRateOf, BRACKETS_2024,
      rateScan]
  · norm_num [get_marginal_rate_2024, bracketsOf, topRateOf, BRACKETS_2024,
      rateScan]
  · norm_num [get_marginal_rate_2024, bracketsOf, topRateOf, BRACKETS_2024,
      rateScan]

/-- Witness for C1 at the SINGLE 0.22-bracket upper bound 100525. -/
theorem c1_witness :
    get_marginal_rate_2024 100525 single =
      .ok (firstRateSpec 100525 (bracketsOf single) (topRateOf single)) :=
  c1_marginal_rate_first_bracket.1 100525 single (by norm_num)

/-- C2: `calculate_tax_liability` returns 0 at zero income, an error on
every negative income, and on nonnegative income the bracket sum — each
full bracket below the one containing the income contributes its span
times its rate, the containing bracket `(income - previous_ceiling)`
times its rate (`specTaxSum` is that clamped bracket sum). -/
theorem c2_tax_liability_bracket_sum :
    (∀ s : FilingStatus, calculate_tax_liability 0 s = .ok 0) ∧
    (∀ (income : ℚ) (s : FilingStatus), income < 0 →
      calculate_tax_liability income s = .error "Income cannot be negative") ∧
    (∀ (income : ℚ) (s : FilingStatus), 0 ≤ income →
      calculate_tax_liability income s =
        .ok (specTaxSum income 0 (bracketsOf s) (topRateOf s))) := by
  refine ⟨fun s => by norm_num [calculate_tax_liability],
    fun income s h => by rw [calculate_tax_liability, if_pos h],
    fun income s h => ?_⟩
  rcases eq_or_lt_of_le h with h0 | h0
  · subst h0
    rw [calculate_tax_liability, if_neg (lt_irrefl 0), if_pos rfl,
      specTaxSum_eq_zero 0 0 (topRateOf s) (bracketsOf s) le_rfl
        (ceilMono_table s)]
  · rw [calculate_tax_liability, if_neg (not_lt.mpr h),
      if_neg (ne_of_gt h0),
      taxLoop_eq_specTaxSum income (topRateOf s) (bracketsOf s) 0 0 h
        (ceilMono_table s), zero_add]

/-- Witness for C2 at income 50000 for SINGLE. -/
theorem c2_witness :
    calculate_tax_liability 50000 single =
      .ok (specTaxSum 50000 0 (bracketsOf single) (topRateOf single)) :=
  c2_tax_liability_bracket_sum.2.2 50000 single (by norm_num)

/-- C3: for every positive income and filing status the effective
(average) rate never exceeds the marginal rate of the bracket containing
the income. -/
theorem c3_effective_le_marginal (income : ℚ) (s : FilingStatus)
    (h : 0 < income) :
    ∃ e m : ℚ, calculate_effective_rate income s = .ok e ∧
      get_marginal_rate_2024 income s = .ok m ∧ e ≤ m := by
  refine ⟨taxLoop income 0 0 (bracketsOf s) (topRateOf s) / income,
    rateScan income (bracketsOf s) (topRateOf s), ?_, ?_, ?_⟩
  · rw [calculate_effective_rate, if_neg (not_le.mpr h),
      calculate_tax_liability, if_neg (not_lt.mpr (le_of_lt h)),
      if_neg (ne_of_gt h)]
    rfl
  · rw [get_marginal_rate_2024, if_neg (not_lt.mpr (le_of_lt h))]
  · rw [div_le_iff₀ h]
    have := taxLoop_le_marginal income (topRateOf s) (bracketsOf s) 0 0 0
      (le_of_lt h) (ceilMono_table s) (ratesLB_table s)
    linarith

/-- Witness for C3 at income 75000 for SINGLE. -/
theorem c3_witness :
    ∃ e m : ℚ, calculate_effective_rate 75000 single = .ok e ∧
      get_marginal_rate_2024 75000 single = .ok m ∧ e ≤ m :=
  c3_effective_le_marginal 75000 single (by norm_num)

end LlmEti

namespace LlmEti

open FilingStatus

/-- C4: the continuous ETI returns the explicit no-value `none` (never an
exception) exactly when the initial income is zero, the initial rate is 1,
or the net-of-tax rate does not change (the two rates are equal); in
particular every call with initial rate 1 yields `none`. -/
theorem c4_eti_undefined_iff (ir nr ii ni : ℚ) :
    calculate_eti ir nr ii ni = none ↔ ii = 0 ∨ ir = 1 ∨ nr = ir := by
  unfold calculate_eti
  by_cases h1 : ii = 0
  · simp [h1]
  · simp only [if_neg h1]
    by_cases h2 : (1 : ℚ) - ir = 0
    · have hir : ir = 1 := by linarith
      simp [h2, hir]
    · have hir : ir ≠ 1 := fun h => h2 (by rw [h]; ring)
      simp only [if_neg h2]
      by_cases h3 : ((1 - nr) - (1 - ir)) / (1 - ir) = 0
      · have hnum : (1 - nr) - (1 - ir) = 0 := by
          rcases div_eq_zero_iff.mp h3 with h | h
          · exact h
          · exact absurd h h2
        have heq : nr = ir := by linarith
        simp [h3, h1, hir, heq]
      · have hne : nr ≠ ir := by
          intro he
          exact h3 (by rw [he]; simp)
        simp [h3, h1, hir, hne]
        exact ⟨fun h => hne (by linarith), h2⟩

/-- C5: the notch schedule taxes the entire income at the high rate as
soon as income exceeds the threshold, so with the configured PKNF
parameters (threshold 400, rates 0.25/0.50) some income above the
threshold leaves strictly less after tax than stopping exactly at the
threshold; the worked example computed in
GPT_PKNF_replication.generate_tax_scenario agrees with the schedule at
income threshold + 20. -/
theorem c5_notch_entire_income :
    (∀ income threshold low_rate high_rate : ℚ, threshold < income →
      notch_tax income threshold low_rate high_rate = income * high_rate) ∧
    (∃ income : ℚ, pknf_threshold < income ∧
      after_tax_income income pknf_threshold pknf_low_rate pknf_high_rate <
        after_tax_income pknf_threshold pknf_threshold pknf_low_rate
          pknf_high_rate) ∧
    (∀ bkt1 rate2 lr : ℚ, notch_tax (bkt1 + 20) bkt1 lr (rate2 / 100) =
      pknf_example_tax bkt1 rate2) := by
  refine ⟨fun income t lo hi h => ?_, ⟨401, by norm_num [pknf_threshold], ?_⟩,
    fun b r lr => ?_⟩
  · rw [notch_tax, if_neg (not_le.mpr h)]
  · norm_num [after_tax_income, notch_tax, pknf_threshold, pknf_low_rate,
      pknf_high_rate]
  · rw [notch_tax, if_neg (by linarith : ¬ b + 20 ≤ b), pknf_example_tax]
    ring

/-- Witness for C5: at income 500 the notch tax is the high rate on the
whole 500. -/
theorem c5_witness :
    notch_tax 500 400 pknf_low_rate pknf_high_rate = 500 * pknf_high_rate :=
  c5_notch_entire_income.1 500 400 pknf_low_rate pknf_high_rate (by norm_num)

/-- C6 counterexample: under the notch schedule (the entire income taxed
at the high rate above the threshold) the after-tax income at 420 is 210,
not the 310 the claim states. -/
theorem c6_counterexample :
    after_tax_income 420 pknf_threshold pknf_low_rate pknf_high_rate = 210 ∧
    (210 : ℚ) ≠ 310 := by
  constructor
  · norm_num [after_tax_income, notch_tax, pknf_threshold, pknf_low_rate,
      pknf_high_rate]
  · norm_num

/-- C6 amended: with threshold 400 and rates 0.25/0.50 the notch schedule
gives after-tax 300 at income 400 but 210 at income 420; the 300/310 pair
of the claim is produced by the survey.py lab (kink) schedule, where the
high rate applies only to the excess above the threshold. -/
theorem c6_lab_schedule_values :
    after_tax_income 400 pknf_threshold pknf_low_rate pknf_high_rate = 300 ∧
    after_tax_income 420 pknf_threshold pknf_low_rate pknf_high_rate = 210 ∧
    400 - survey_lab_tax 400 pknf_threshold pknf_low_rate pknf_high_rate
      = 300 ∧
    420 - survey_lab_tax 420 pknf_threshold pknf_low_rate pknf_high_rate
      = 310 := by
  refine ⟨?_, ?_, ?_, ?_⟩ <;>
    norm_num [after_tax_income, notch_tax, survey_lab_tax, pknf_threshold,
      pknf_low_rate, pknf_high_rate]

end LlmEti

namespace LlmEti

open FilingStatus

/-- Closed form of `calculate_eti` when every guard passes. -/
theorem calculate_eti_some (ir nr ii ni : ℚ) (hii : ii ≠ 0)
    (hir : (1 : ℚ) - ir ≠ 0) (hne : ir - nr ≠ 0) :
    calculate_eti ir nr ii ni =
      some (((ni - ii) / ii) / ((ir - nr) / (1 - ir))) := by
  simp only [calculate_eti, if_neg hii, if_neg hir]
  have hnum : (1 : ℚ) - nr - (1 - ir) = ir - nr := by ring
  rw [hnum, if_neg (div_ne_zero hne hir)]

/-- C7 counterexample: for the ABOUT_SAME response a nonzero but
sub-tolerance rate change (current rate 1/4, new rate 1/4 + 10⁻¹²,
current rate ≠ 1) makes `response_to_eti` return `none`, not 0.0. -/
theorem c7_counterexample :
    response_to_eti .about_same (1/4) (1/4 + 1/1000000000000) = none ∧
    (1/4 : ℚ) ≠ 1/4 + 1/1000000000000 ∧ ((1 : ℚ)/4) ≠ 1 := by
  refine ⟨?_, by norm_num, by norm_num⟩
  norm_num [response_to_eti, RESPONSE_MIDPOINTS, abs_lt]

/-- C7 amended: the ABOUT_SAME response yields exactly 0.0 whenever the
current rate is not 1 and the absolute percent change of the net-of-tax
rate is at least the 1e-10 tolerance (not for every pair of unequal
rates). -/
theorem c7_about_same_zero (cr nr : ℚ) (h1 : cr ≠ 1)
    (h2 : 1/10^10 ≤ |(cr - nr) / (1 - cr)|) :
    response_to_eti .about_same cr nr = some 0 := by
  have hc : (1 : ℚ) - cr ≠ 0 := fun h => h1 (by linarith)
  simp only [response_to_eti, RESPONSE_MIDPOINTS, if_neg hc]
  have hnum : (1 : ℚ) - nr - (1 - cr) = cr - nr := by ring
  rw [hnum, if_neg (not_lt.mpr h2), zero_div]

/-- Witness for C7 amended at rates 1/4 and 1/2. -/
theorem c7_witness : response_to_eti .about_same (1/4) (1/2) = some 0 := by
  apply c7_about_same_zero
  · norm_num
  · rw [show ((1 : ℚ)/4 - 1/2) / (1 - 1/4) = -(1/3) by norm_num, abs_neg,
      abs_of_nonneg (by norm_num : (0 : ℚ) ≤ 1/3)]
    norm_num

/-- C8 counterexample: `calculate_effective_rate` at the negative income
-100 returns the value 0.0 instead of raising InvalidInput. -/
theorem c8_counterexample :
    calculate_effective_rate (-100) single = .ok 0 ∧ (-100 : ℚ) < 0 :=
  ⟨by norm_num [calculate_effective_rate], by norm_num⟩

/-- C8 amended: on negative income `get_marginal_rate_2024` and
`calculate_tax_liability` raise InvalidInput immediately, but
`calculate_effective_rate` silently returns 0.0 (its income ≤ 0 guard
covers negative income as well as the zero policy case). -/
theorem c8_negative_income_policy (income : ℚ) (s : FilingStatus)
    (h : income < 0) :
    get_marginal_rate_2024 income s = .error "Income cannot be negative" ∧
    calculate_tax_liability income s = .error "Income cannot be negative" ∧
    calculate_effective_rate income s = .ok 0 :=
  ⟨by rw [get_marginal_rate_2024, if_pos h],
    by rw [calculate_tax_liability, if_pos h],
    by rw [calculate_effective_rate, if_pos (le_of_lt h)]⟩

/-- Witness for C8 amended at income -50, MARRIED_FILING_JOINTLY. -/
theorem c8_witness :
    get_marginal_rate_2024 (-50) married_filing_jointly
        = .error "Income cannot be negative" ∧
    calculate_tax_liability (-50) married_filing_jointly
        = .error "Income cannot be negative" ∧
    calculate_effective_rate (-50) married_filing_jointly = .ok 0 :=
  c8_negative_income_policy (-50) married_filing_jointly (by norm_num)

/-- C9 counterexample: swapping the initial/new labels changes the ETI —
rates 1/4 and 1/2 (both in [0,1)) with positive incomes 100 and 90 give
3/10 one way and 2/9 the other. -/
theorem c9_counterexample :
    calculate_eti (1/4) (1/2) 100 90 = some (3/10) ∧
    calculate_eti (1/2) (1/4) 90 100 = some (2/9) ∧
    (3/10 : ℚ) ≠ 2/9 ∧
    (0 : ℚ) ≤ 1/4 ∧ (1/4 : ℚ) < 1 ∧ (0 : ℚ) ≤ 1/2 ∧ (1/2 : ℚ) < 1 ∧
    (0 : ℚ) < 100 ∧ (0 : ℚ) < 90 := by
  refine ⟨?_, ?_, ?_, ?_, ?_, ?_, ?_, ?_, ?_⟩ <;> norm_num [calculate_eti]

/-- C9 amended: swapping the labels does not preserve the ETI itself;
instead the two defined values satisfy the compensating identity
`a·(ii·(1−nr)) = b·(ni·(1−ir))` (equality of the ETIs only holds when
`ii·(1−nr) = ni·(1−ir)`). -/
theorem c9_eti_swap_identity (ir nr ii ni : ℚ) (hir : ir < 1) (hnr : nr < 1)
    (hii : 0 < ii) (hni : 0 < ni) (hne : ir ≠ nr) :
    ∃ a b : ℚ, calculate_eti ir nr ii ni = some a ∧
      calculate_eti nr ir ni ii = some b ∧
      a * (ii * (1 - nr)) = b * (ni * (1 - ir)) := by
  have hii' : ii ≠ 0 := ne_of_gt hii
  have hni' : ni ≠ 0 := ne_of_gt hni
  have hir' : (1 : ℚ) - ir ≠ 0 := ne_of_gt (by linarith)
  have hnr' : (1 : ℚ) - nr ≠ 0 := ne_of_gt (by linarith)
  have h1 : ir - nr ≠ 0 := sub_ne_zero.mpr hne
  have h2 : nr - ir ≠ 0 := sub_ne_zero.mpr (Ne.symm hne)
  refine ⟨_, _, calculate_eti_some ir nr ii ni hii' hir' h1,
    calculate_eti_some nr ir ni ii hni' hnr' h2, ?_⟩
  field_simp
  ring

/-- Witness for C9 amended at rates 1/4, 1/2 and incomes 100, 90. -/
theorem c9_witness :
    ∃ a b : ℚ, calculate_eti (1/4) (1/2) 100 90 = some a ∧
      calculate_eti (1/2) (1/4) 90 100 = some b ∧
      a * (100 * (1 - 1/2)) = b * (90 * (1 - 1/4)) :=
  c9_eti_swap_identity (1/4) (1/2) 100 90 (by norm_num) (by norm_num)
    (by norm_num) (by norm_num) (by norm_num)

/-- C10: for every response category `response_to_eti` is `none` exactly
when the current rate is 1 or the absolute percent change of the
net-of-tax rate is below the 1e-10 tolerance; in particular some pairs of
unequal rates still give `none`. -/
theorem c10_response_to_eti_none_iff :
    (∀ (resp : IncomeResponse) (cr nr : ℚ),
      response_to_eti resp cr nr = none ↔
        cr = 1 ∨ |(cr - nr) / (1 - cr)| < 1/10^10) ∧
    ∃ (resp : IncomeResponse) (cr nr : ℚ),
      cr ≠ nr ∧ response_to_eti resp cr nr = none := by
  constructor
  · intro resp cr nr
    by_cases h : (1 : ℚ) - cr = 0
    · have hcr : cr = 1 := by linarith
      simp [response_to_eti, h, hcr]
    · have hcr : cr ≠ 1 := fun he => h (by rw [he]; ring)
      simp only [response_to_eti, if_neg h]
      have hnum : (1 : ℚ) - nr - (1 - cr) = cr - nr := by ring
      rw [hnum]
      by_cases h2 : |(cr - nr) / (1 - cr)| < 1/10^10
      · simp [h2, hcr]
      · simp [h2, hcr]
  · exact ⟨.about_same, 1/4, 1/4 + 1/1000000000000, by norm_num,
      by norm_num [response_to_eti, RESPONSE_MIDPOINTS, abs_lt]⟩

end LlmEti
